import Mathlib

/-!
Shallow embedding of the two teaching programs of this repository:
`src/dangling_pointer.cpp` (raw pointers, intentional use-after-release)
and `src/unique_pointer_demo.cpp` (scoped ownership via `std::unique_ptr`).

The heap is modelled as a finite map from addresses (`Nat`, with `0` the
null pointer) to cell statuses; each program is a linear sequence of
operations producing a trace of events (allocations, reads, releases,
console lines).  Both programs are closed and deterministic, so each run
is a concrete value and the testable properties are decidable.
-/

namespace PointerDemo

/-- Status of a heap cell: live holding an integer value, or already released. -/
inductive CellStatus where
  | allocated (v : Int)
  | freed
  deriving DecidableEq, Repr

/-- The heap: the next fresh address (addresses start at 1; 0 is the null
pointer) and an association list from address to cell status. -/
structure Heap where
  next : Nat
  cells : List (Nat × CellStatus)
  deriving DecidableEq, Repr

def Heap.empty : Heap := ⟨1, []⟩

def Heap.lookup (h : Heap) (a : Nat) : Option CellStatus :=
  (h.cells.find? (fun c => c.1 == a)).map Prod.snd

/-- `new int` with initial value `v`: returns the fresh address and the new heap. -/
def Heap.alloc (h : Heap) (v : Int) : Nat × Heap :=
  (h.next, ⟨h.next + 1, (h.next, CellStatus.allocated v) :: h.cells⟩)

/-- `delete p`: a no-op on the null pointer, otherwise marks the cell freed. -/
def Heap.delete (h : Heap) (a : Nat) : Heap :=
  if a = 0 then h
  else ⟨h.next, h.cells.map (fun c => if c.1 == a then (c.1, CellStatus.freed) else c)⟩

/-- Dereference: `some v` when the address holds a live cell, `none` when the
storage is not currently allocated (null, never allocated, or released). -/
def Heap.read (h : Heap) (a : Nat) : Option Int :=
  match h.lookup a with
  | some (CellStatus.allocated v) => some v
  | _ => none

/-- The console lines the two programs print. -/
inductive Line where
  | allocSucceeded
  | ptrShow (label : String) (addr : Nat) (value : Option Int)
  | nullAfterMove
  deriving DecidableEq, Repr

/-- How a cell release came about: a `delete` statement, or a destructor
running at end of scope. -/
inductive FreeKind where
  | explicitDelete
  | scopeExit
  deriving DecidableEq, Repr

/-- Observable / instrumented events of a run. -/
inductive Event where
  | alloc (addr : Nat) (v : Int)
  | read (addr : Nat) (result : Option Int)
  | free (addr : Nat) (kind : FreeKind)
  | out (line : Line)
  deriving DecidableEq, Repr

def readsOf (es : List Event) : List (Nat × Option Int) :=
  es.filterMap (fun e => match e with
    | Event.read a r => some (a, r)
    | _ => none)

def linesOf (es : List Event) : List Line :=
  es.filterMap (fun e => match e with
    | Event.out l => some l
    | _ => none)

def freesOf (es : List Event) : List (Nat × FreeKind) :=
  es.filterMap (fun e => match e with
    | Event.free a k => some (a, k)
    | _ => none)

/-- A read of storage that is not currently allocated: what a
memory-instrumentation check reports as a use-after-release access. -/
def isStaleRead (e : Event) : Bool :=
  match e with
  | Event.read _ none => true
  | _ => false

/-! ## Unmanaged demo: `src/dangling_pointer.cpp` -/

/-- The guarded block `if (pointer1 != nullptr) ...` of `dangling_pointer.cpp`:
print "Allocation succeeded." and both pointers' addresses and values
(`pointer2` is a copy of `pointer1`). -/
def danglingGuardEvents (pointer1 : Nat) (h1 : Heap) : List Event :=
  let pointer2 := pointer1
  if pointer1 ≠ 0 then
    [Event.out Line.allocSucceeded,
     Event.read pointer1 (h1.read pointer1),
     Event.out (Line.ptrShow "pointer1" pointer1 (h1.read pointer1)),
     Event.read pointer2 (h1.read pointer2),
     Event.out (Line.ptrShow "pointer2" pointer2 (h1.read pointer2))]
  else []

/-- Result of running the unmanaged demo, split into the phases of the source:
the guarded print block, the release step (`delete pointer1; pointer1 = nullptr;`),
and the final stale access through `pointer2`. -/
structure DanglingRun where
  guardEvents : List Event
  releaseEvents : List Event
  finalEvents : List Event
  pointer1Final : Nat
  pointer2Final : Nat
  finalHeap : Heap
  exitCode : Int
  deriving DecidableEq, Repr

def DanglingRun.events (r : DanglingRun) : List Event :=
  r.guardEvents ++ r.releaseEvents ++ r.finalEvents

/-- `main` of `dangling_pointer.cpp` after the allocation line:
`pointer1` is the allocation result, `h1` the heap after allocation.
`pointer2 = pointer1`; then the guarded block; then `delete pointer1`
and `pointer1 = nullptr`; then read and print `*pointer2`; `return 0`. -/
def danglingMainFrom (pointer1 : Nat) (h1 : Heap) : DanglingRun :=
  let pointer2 := pointer1
  let guardEvents := danglingGuardEvents pointer1 h1
  let h2 := h1.delete pointer1
  let releaseEvents := [Event.free pointer1 FreeKind.explicitDelete]
  let pointer1After : Nat := 0
  let finalRead := h2.read pointer2
  ⟨guardEvents, releaseEvents,
   [Event.read pointer2 finalRead,
    Event.out (Line.ptrShow "pointer2 after delete" pointer2 finalRead)],
   pointer1After, pointer2, h2, 0⟩

/-- `int* pointer1 = new int(67);` starting from the empty heap. -/
def dAlloc : Nat × Heap := Heap.empty.alloc 67

def dAddr : Nat := dAlloc.1

def dHeap1 : Heap := dAlloc.2

/-- The concrete run of the unmanaged demo. -/
def danglingRun : DanglingRun := danglingMainFrom dAddr dHeap1

/-- Full event trace of the unmanaged demo, the allocation included. -/
def danglingEvents : List Event :=
  Event.alloc dAddr 67 :: danglingRun.events

/-! ## Scoped demo: `src/unique_pointer_demo.cpp` -/

/-- A `std::unique_ptr<int>`: the owned address, or `none` when empty.
`get` on an empty handle yields the null pointer. -/
structure UniquePtr where
  ptr : Option Nat
  deriving DecidableEq, Repr

def UniquePtr.get (p : UniquePtr) : Nat := p.ptr.getD 0

def UniquePtr.isNull (p : UniquePtr) : Bool := p.ptr.isNone

/-- Move construction from `std::move(p)`: the destination takes the owned
pointer and the source is left empty.  Returns (source after move, destination). -/
def UniquePtr.moveOut (p : UniquePtr) : UniquePtr × UniquePtr :=
  (⟨none⟩, ⟨p.ptr⟩)

/-- The `unique_ptr` destructor: releases the owned cell, if any. -/
def UniquePtr.destroy (p : UniquePtr) (h : Heap) : Heap × List Event :=
  match p.ptr with
  | some a => (h.delete a, [Event.free a FreeKind.scopeExit])
  | none => (h, [])

/-- `std::make_unique<int>(67)` starting from the empty heap. -/
def uAlloc : Nat × Heap := Heap.empty.alloc 67

def uAddr : Nat := uAlloc.1

def uHeap1 : Heap := uAlloc.2

/-- `pointer1` right after `make_unique`. -/
def uPointer1 : UniquePtr := ⟨some uAddr⟩

/-- `*pointer1` for the first print. -/
def uRead1 : Option Int := uHeap1.read uPointer1.get

/-- `std::unique_ptr<int> pointer2 = std::move(pointer1);` -/
def uMoved : UniquePtr × UniquePtr := uPointer1.moveOut

def uPointer1After : UniquePtr := uMoved.1

def uPointer2 : UniquePtr := uMoved.2

/-- `*pointer2` for the second print. -/
def uRead2 : Option Int := uHeap1.read uPointer2.get

/-- End of scope: destructors run in reverse declaration order,
`pointer2` first, then `pointer1`. -/
def uDestroy2 : Heap × List Event := uPointer2.destroy uHeap1

def uDestroy1 : Heap × List Event := uPointer1After.destroy uDestroy2.1

def uFinalHeap : Heap := uDestroy1.1

/-- Full event trace of the scoped demo. -/
def uniqueEvents : List Event :=
  [Event.alloc uAddr 67,
   Event.read uPointer1.get uRead1,
   Event.out (Line.ptrShow "pointer1" uPointer1.get uRead1)] ++
  (if uPointer1After.isNull then [Event.out Line.nullAfterMove] else []) ++
  [Event.read uPointer2.get uRead2,
   Event.out (Line.ptrShow "pointer2" uPointer2.get uRead2)] ++
  uDestroy2.2 ++ uDestroy1.2

/-- The scoped demo's run: its event trace and its exit status (`return 0`). -/
def uniqueRun : List Event × Int := (uniqueEvents, 0)

/-- A snapshot of the scoped demo: contents of `pointer1`, contents of
`pointer2` (`none` while not yet constructed or empty), and the heap. -/
structure UState where
  p1 : Option Nat
  p2 : Option Nat
  heap : Heap
  deriving DecidableEq, Repr

/-- How many of the two handles own address `a`. -/
def owners (p1 p2 : Option Nat) (a : Nat) : Nat :=
  (if p1 = some a then 1 else 0) + (if p2 = some a then 1 else 0)

/-- Snapshots of the scoped demo after each step of `main`:
start, allocation, first print, move, empty-check print, second print,
destructor of `pointer2`, destructor of `pointer1`. -/
def uniqueStates : List UState :=
  [⟨none, none, Heap.empty⟩,
   ⟨uPointer1.ptr, none, uHeap1⟩,
   ⟨uPointer1.ptr, none, uHeap1⟩,
   ⟨uPointer1After.ptr, uPointer2.ptr, uHeap1⟩,
   ⟨uPointer1After.ptr, uPointer2.ptr, uHeap1⟩,
   ⟨uPointer1After.ptr, uPointer2.ptr, uHeap1⟩,
   ⟨uPointer1After.ptr, uPointer2.ptr, uDestroy2.1⟩,
   ⟨uPointer1After.ptr, uPointer2.ptr, uFinalHeap⟩]

/-- Every live cell of the snapshot is owned by exactly one handle. -/
def UState.singleOwner (s : UState) : Bool :=
  s.heap.cells.all (fun c => match c.2 with
    | CellStatus.allocated _ => owners s.p1 s.p2 c.1 == 1
    | CellStatus.freed => true)

/-! ## Claims -/

/-- C1: In the scoped demo, after the ownership transfer (`std::move` from
`pointer1` into `pointer2`), the source handle is empty and the destination
handle reads and prints the original value 67; the run is a closed value, so
this holds deterministically for every run. -/
theorem scoped_move_source_empty_dest_67 :
    uPointer1After.ptr = none ∧
    uRead2 = some 67 ∧
    linesOf uniqueEvents =
      [Line.ptrShow "pointer1" uAddr (some 67),
       Line.nullAfterMove,
       Line.ptrShow "pointer2" uAddr (some 67)] := by
  decide

/-- C2: In the scoped demo, at every snapshot of the run each live cell is
owned by exactly one handle, and after the move the source handle holds no
value; the invariant is preserved by every step (allocation, reads, move,
scope exit). -/
theorem scoped_single_owner_invariant :
    uniqueStates.all UState.singleOwner = true ∧
    uPointer1After.ptr = none := by
  decide

/-- C3: In the unmanaged demo, the trace contains exactly three reads; the
first two succeed with value 67 and the final read, through the stale
`pointer2` after the release, is the one and only use-after-release access. -/
theorem unmanaged_stale_read_exactly_final :
    readsOf danglingEvents = [(dAddr, some 67), (dAddr, some 67), (dAddr, none)] ∧
    danglingEvents.filter isStaleRead = [Event.read dAddr none] := by
  decide

/-- C4: In the unmanaged demo, before the release step the two printed
pointer lines show the same address `dAddr` and the same value 67, and the
two reads behind them agree likewise. -/
theorem unmanaged_aliases_agree_before_release :
    linesOf danglingRun.guardEvents =
      [Line.allocSucceeded,
       Line.ptrShow "pointer1" dAddr (some 67),
       Line.ptrShow "pointer2" dAddr (some 67)] ∧
    readsOf danglingRun.guardEvents = [(dAddr, some 67), (dAddr, some 67)] := by
  decide

/-- C5: In the unmanaged demo, whatever value `pointer1` has after the
allocation, the three lines (allocation success and both pointers' address
and value) and the two dereferences occur exactly when `pointer1` is
non-null, all inside the guarded block; the release step itself performs no
dereference, so before the release no dereference happens outside the guard. -/
theorem unmanaged_derefs_only_under_guard (p1 : Nat) (h1 : Heap) :
    (danglingMainFrom p1 h1).guardEvents = danglingGuardEvents p1 h1 ∧
    readsOf (danglingMainFrom p1 h1).releaseEvents = [] ∧
    linesOf (danglingGuardEvents p1 h1) =
      (if p1 = 0 then []
       else [Line.allocSucceeded,
             Line.ptrShow "pointer1" p1 (h1.read p1),
             Line.ptrShow "pointer2" p1 (h1.read p1)]) ∧
    readsOf (danglingGuardEvents p1 h1) =
      (if p1 = 0 then [] else [(p1, h1.read p1), (p1, h1.read p1)]) := by
  refine ⟨rfl, rfl, ?_, ?_⟩ <;>
    by_cases h : p1 = 0 <;>
    simp [danglingGuardEvents, linesOf, readsOf, h]

/-- C6: In the unmanaged demo, the release step frees the cell through
`pointer1` (the cell at the allocation address is freed in the final heap)
and then clears `pointer1` to null, while `pointer2` still holds the
original allocation address, unchanged, and the subsequent access reads
through that address. -/
theorem unmanaged_release_then_stale_access :
    danglingRun.finalHeap.lookup dAddr = some CellStatus.freed ∧
    danglingRun.pointer1Final = 0 ∧
    danglingRun.pointer2Final = dAddr ∧
    freesOf danglingRun.releaseEvents = [(dAddr, FreeKind.explicitDelete)] ∧
    readsOf danglingRun.finalEvents = [(dAddr, none)] := by
  decide

/-- C7: Both programs terminate with exit status 0: each `main` models
`return 0` after its linear sequence of operations. -/
theorem both_programs_exit_zero :
    danglingRun.exitCode = 0 ∧ uniqueRun.2 = 0 := by
  decide

/-- C8: In the scoped demo, the cell is released exactly once, by the
destructor of `pointer2` at end of scope (no explicit `delete` release kind
appears in the trace), the destructor of the moved-from `pointer1` releases
nothing, and at program end no cell remains allocated. -/
theorem scoped_release_exactly_once_at_scope_exit :
    freesOf uniqueEvents = [(uAddr, FreeKind.scopeExit)] ∧
    uDestroy2.2 = [Event.free uAddr FreeKind.scopeExit] ∧
    uDestroy1.2 = [] ∧
    uFinalHeap.cells.all (fun c => c.2 == CellStatus.freed) = true := by
  decide

/-- C9: Allocation never yields the null pointer: from any heap whose fresh
address counter is positive (as it always is, starting at 1), `alloc`
returns a non-null address; in the concrete run the guard therefore
succeeds and the three guarded lines are printed. -/
theorem unmanaged_alloc_never_null (h : Heap) (v : Int) (hpos : 0 < h.next) :
    (h.alloc v).1 ≠ 0 ∧
    dAddr ≠ 0 ∧
    linesOf danglingRun.guardEvents =
      [Line.allocSucceeded,
       Line.ptrShow "pointer1" dAddr (some 67),
       Line.ptrShow "pointer2" dAddr (some 67)] := by
  refine ⟨?_, by decide, by decide⟩
  simpa [Heap.alloc] using Nat.pos_iff_ne_zero.mp hpos

/-- Witness for C9 at the concrete allocation of the unmanaged demo. -/
theorem unmanaged_alloc_never_null_check :
    (Heap.empty.alloc 67).1 ≠ 0 :=
  (unmanaged_alloc_never_null Heap.empty 67 (by decide)).1

/-- C10: In the scoped demo, the move preserves the cell's address identity:
the address held (and reported via `get`) by the destination after the move
equals the address held by the source before the move, namely the original
allocation address. -/
theorem scoped_move_preserves_address :
    uPointer2.ptr = uPointer1.ptr ∧
    uPointer2.get = uPointer1.get ∧
    uPointer2.get = uAddr := by
  decide

end PointerDemo
